import Mathlib

/-!
Verification of the two request handlers of the `services` repository.

The repository contains two independent Python services:

* `services/firestore-crud-api-assessment02/main.py` — a FastAPI CRUD API over a
  Firestore collection, including a transactional price updater (`update_price`)
  and an unconditional delete (`delete_item`).
* `services/pub-sub-assessment03/main.py` — an HTTP Cloud Function
  (`publish_message`) that deduplicates requests by `request_id` using a
  process-local set and forwards fresh messages to a Pub/Sub topic.

The development embeds both handlers shallowly: parsed JSON request bodies are
an inductive type `Json`; the Firestore collection is an association list from
document id to a field map; the Pub/Sub publisher is an oracle parameter giving
the outcome of the one `publish`/`future.result()` round trip a handler call can
make; every handler is a pure function returning the HTTP outcome, the new
shared state, and the list of downstream publish calls it issued.
-/

/-- A parsed JSON value, as produced by `request.get_json` / stored in
Firestore documents. JSON numbers are carried opaquely: no operation in either
service computes with a number (prices and message payloads are only stored,
serialized and echoed back verbatim), so they are represented by integers. -/
inductive Json where
  | null
  | bool (b : Bool)
  | num (n : Int)
  | str (s : String)
  | arr (xs : List Json)
  | obj (kvs : List (String × Json))

mutual

/-- Structural equality of JSON values, modelling Python `==` on the values
`json.loads` produces. (Python's numeric cross-type equalities such as
`True == 1` are not modelled; no request id in the claims exercises them.) -/
def Json.beq : Json → Json → Bool
  | .null, .null => true
  | .bool a, .bool b => a == b
  | .num a, .num b => a == b
  | .str a, .str b => a == b
  | .arr xs, .arr ys => Json.beqList xs ys
  | .obj kvs, .obj lws => Json.beqObj kvs lws
  | _, _ => false

/-- Elementwise equality of JSON arrays. -/
def Json.beqList : List Json → List Json → Bool
  | [], [] => true
  | x :: xs, y :: ys => Json.beq x y && Json.beqList xs ys
  | _, _ => false

/-- Entrywise equality of JSON objects (Python dicts parsed from JSON). -/
def Json.beqObj : List (String × Json) → List (String × Json) → Bool
  | [], [] => true
  | (k, x) :: xs, (l, y) :: ys => k == l && Json.beq x y && Json.beqObj xs ys
  | _, _ => false

end

instance : BEq Json := ⟨Json.beq⟩

/-- Python truthiness of a parsed JSON value: what `not data` tests on
line 16 of `pub-sub-assessment03/main.py`. `None`, `False`, `0`, `""`, `[]`
and an empty dict are falsy; everything else is truthy. -/
def Json.truthy : Json → Bool
  | .null => false
  | .bool b => b
  | .num n => n != 0
  | .str s => s != ""
  | .arr xs => !xs.isEmpty
  | .obj kvs => !kvs.isEmpty

/-- Whether `needle` occurs as a contiguous run inside `hay`: Python's
substring containment `needle in hay` on strings, over the character lists. -/
def charsContain (needle : List Char) : List Char → Bool
  | [] => needle.isEmpty
  | c :: rest => needle.isPrefixOf (c :: rest) || charsContain needle rest

/-- Python's `k in data` on a parsed JSON value (line 16 of the publisher).
For a dict it is key membership, for a string it is substring containment,
for a list it is element membership; on `None`, booleans and numbers the
`in` operator raises `TypeError`, modelled as `none`. -/
def Json.pyContains : Json → String → Option Bool
  | .obj kvs, k => some (kvs.any (fun p => p.1 == k))
  | .str s, k => some (charsContain k.toList s.toList)
  | .arr xs, k => some (xs.contains (Json.str k))
  | _, _ => none

/-- Python's `data[k]` on a parsed JSON value (lines 19–20 of the publisher).
Only a dict supports string subscripting; on every other value the expression
raises (`TypeError`), modelled as `none`. Objects produced by `json.loads`
have pairwise-distinct keys (duplicate keys in the source text collapse), so
first-match lookup coincides with Python dict lookup. -/
def Json.subscript : Json → String → Option Json
  | .obj kvs, k => (kvs.find? (fun p => p.1 == k)).map Prod.snd
  | _, _ => none

/-- Escaping of backslash and double quote inside a JSON string literal.
(`json.dumps` additionally escapes control and non-ASCII characters; no
claim inspects the serialized bytes, they are only carried to the publish
endpoint, so those escapes are not spelled out.) -/
def Json.escapeStr (s : String) : String :=
  (s.replace "\\" "\\\\").replace "\"" "\\\""

mutual

/-- `json.dumps` on a parsed JSON value (line 32 of the publisher): the
serialized text whose UTF-8 bytes form the published payload. Total on
parsed JSON values — `json.dumps` cannot fail on a value `json.loads`
produced. -/
def Json.serialize : Json → String
  | .null => "null"
  | .bool true => "true"
  | .bool false => "false"
  | .num n => toString n
  | .str s => "\"" ++ Json.escapeStr s ++ "\""
  | .arr xs => "[" ++ Json.serializeList xs ++ "]"
  | .obj kvs => "\x7b" ++ Json.serializeObj kvs ++ "\x7d"

/-- Comma-separated serialization of array elements. -/
def Json.serializeList : List Json → String
  | [] => ""
  | [x] => Json.serialize x
  | x :: xs => Json.serialize x ++ ", " ++ Json.serializeList xs

/-- Comma-separated serialization of object entries. -/
def Json.serializeObj : List (String × Json) → String
  | [] => ""
  | [(k, x)] => "\"" ++ Json.escapeStr k ++ "\": " ++ Json.serialize x
  | (k, x) :: xs =>
      "\"" ++ Json.escapeStr k ++ "\": " ++ Json.serialize x ++ ", " ++ Json.serializeObj xs

end

/-! ### Association lists

Both the Firestore document (field name ↦ value) and the Firestore collection
(document id ↦ document) are finite maps addressed by strings; they are
embedded as association lists with first-match lookup and replace-or-append
update. -/

/-- First-match lookup in a string-keyed association list. -/
def assocGet {β : Type} (l : List (String × β)) (k : String) : Option β :=
  (l.find? (fun p => p.1 == k)).map Prod.snd

/-- Replace the binding of `k` (or append one): the merge semantics of a
Firestore field-level `update` and of committing a document back into the
collection. -/
def assocSet {β : Type} : List (String × β) → String → β → List (String × β)
  | [], k, v => [(k, v)]
  | (k2, v2) :: rest, k, v =>
      if k2 == k then (k, v) :: rest else (k2, v2) :: assocSet rest k v

/-- Remove every binding of `k`: Firestore's document `delete`. -/
def assocRemove {β : Type} : List (String × β) → String → List (String × β)
  | [], _ => []
  | (k2, v2) :: rest, k =>
      if k2 == k then assocRemove rest k else (k2, v2) :: assocRemove rest k

/-! ### Firestore CRUD service (`firestore-crud-api-assessment02/main.py`)

The Firestore collection `items` is a map from document id to a document,
itself a map from field name to value. The handlers relevant to the claims
are `update_price` (lines 93–114) and `delete_item` (lines 77–81). -/

/-- A Firestore document: its fields. -/
abbrev Fields := List (String × Json)

/-- The Firestore collection `items`: document id ↦ document. -/
abbrev Store := List (String × Fields)

/-- Read a field of a document. -/
def getField (fs : Fields) (k : String) : Option Json := assocGet fs k

/-- Firestore field-level update merge: `transaction.update(doc_ref, \x7b"price": v\x7d)`
sets exactly the named field and leaves every other field as it was. -/
def setField (fs : Fields) (k : String) (v : Json) : Fields := assocSet fs k v

/-- `db.collection("items").document(item_id).get()`: the snapshot, `none`
when the document does not exist. -/
def lookupDoc (s : Store) (item_id : String) : Option Fields := assocGet s item_id

/-- Commit a document back into the collection under its id. -/
def setDoc (s : Store) (item_id : String) (fs : Fields) : Store := assocSet s item_id fs

/-- `db.collection("items").document(item_id).delete()`: removes the document;
a no-op (still successful) when no such document exists. -/
def removeDoc (s : Store) (item_id : String) : Store := assocRemove s item_id

/-- The exception raised inside the transactional function: line 105 raises
`HTTPException(status_code=404, detail="Item not found")` when the snapshot
does not exist. -/
inductive TxnError where
  | httpNotFound

/-- The transactional function `txn_fn` (lines 101–106): read the snapshot of
`item_id` with the transaction's read; if it does not exist raise the 404
`HTTPException`, otherwise stage a field-level update of exactly `price` and
commit. The `Except.error` case is the raised exception propagating out of the
transaction (which then rolls back: no write happens); the `Except.ok` case is
the committed store. -/
def txn_fn (store : Store) (item_id : String) (new_price : Json) : Except TxnError Store :=
  match lookupDoc store item_id with
  | none => .error .httpNotFound
  | some snap => .ok (setDoc store item_id (setField snap "price" new_price))

/-- Response body of the `update_price` endpoint. -/
inductive PriceResp where
  /-- `\x7b"message": "Price updated", "new_price": new_price\x7d`, HTTP 200. -/
  | priceUpdated (new_price : Json)
  /-- `HTTPException(status_code=500, detail="Transaction failed")`. -/
  | transactionFailed

/-- The handler `update_price` (lines 93–114): run `txn_fn` and on success
return the new price with HTTP 200. Any exception escaping `txn_fn` —
including the `HTTPException(404)` of line 105, since FastAPI's
`HTTPException` is a subclass of `Exception` — is caught by the
`except Exception` clause of line 112 and replaced by
`HTTPException(500, "Transaction failed")`: the 404 raised inside the
transaction is never surfaced to the caller. Returns (status, body) and the
store after the call. -/
def update_price (store : Store) (item_id : String) (new_price : Json) :
    (Nat × PriceResp) × Store :=
  match txn_fn store item_id new_price with
  | .ok store2 => ((200, .priceUpdated new_price), store2)
  | .error _ => ((500, .transactionFailed), store)

/-- Response body of the `delete_item` endpoint: `\x7b"message": "Item deleted"\x7d`. -/
inductive DeleteResp where
  | itemDeleted

/-- The handler `delete_item` (lines 77–81): unconditionally issue the
store-side delete and return the success message with HTTP 200. It never reads
the document, performs no existence check and has no failure branch. -/
def delete_item (store : Store) (item_id : String) : (Nat × DeleteResp) × Store :=
  ((200, .itemDeleted), removeDoc store item_id)

/-! ### Idempotent publisher (`pub-sub-assessment03/main.py`)

The HTTP Cloud Function `publish_message` parses the request body as JSON,
validates that the two fields are present, deduplicates by `request_id`
against the process-local set `processed_requests`, and otherwise publishes
the serialized message to the topic, recording the `request_id` only after
the publish has been confirmed by `future.result()`. -/

/-- The full topic path constructed on line 8 by `publisher.topic_path`. -/
def topic_path : String := "projects/playground-s-11-2d8e1903/topics/sneha-topic"

/-- One call to `publisher.publish` (lines 30–34): the topic, the serialized
payload (whose UTF-8 bytes are sent), and the message attributes. -/
structure PublishCall where
  topic : String
  payload : String
  attrs : List (String × Json)

/-- Response body returned by `publish_message`. -/
inductive PubBody where
  /-- `\x7b"error": "Invalid payload"\x7d`, HTTP 400 (line 17). -/
  | invalidPayload
  /-- `\x7b"message": "Already processed"\x7d`, HTTP 202 (line 23). -/
  | alreadyProcessed
  /-- `\x7b"messageId": id\x7d`, HTTP 202 (line 38). -/
  | messageId (id : String)
  /-- `\x7b"error": str(e)\x7d`, HTTP 500 (line 42), for an exception `e`
  caught by the handler's `except` clause; the string is the exception text. -/
  | errorBody (e : String)

/-- Everything observable about one `publish_message` call: the HTTP status
and body returned, the content of `processed_requests` after the call, and
the downstream publish calls issued during the call. -/
structure PubOutcome where
  status : Nat
  body : PubBody
  processed : List Json
  calls : List PublishCall

/-- The handler `publish_message` (lines 12–42).

* `pubResult` is the oracle for the single Pub/Sub round trip the call can
  make: the value of `future.result()` (line 35), or `Except.error` with the
  exception text when serialization, `publisher.publish` or `future.result()`
  raises.
* `processed_requests` is the process-local dedup set at call entry,
  represented as a list with `Json.beq`-membership.
* `body` is the result of `request.get_json(force=True)` (line 15): `none`
  when the request body is not valid JSON, in which case `get_json` raises
  and the `except` clause answers 500.

The validation of line 16 short-circuits exactly as Python's
`not data or "message" not in data or "request_id" not in data`; a
`TypeError` raised by `in` or by the subscripts of lines 19–20 on a non-dict
body is caught by the `except` clause and answered with 500. -/
def publish_message (pubResult : Except String String) (processed_requests : List Json)
    (body : Option Json) : PubOutcome :=
  match body with
  | none => ⟨500, .errorBody "get_json: request body is not valid JSON", processed_requests, []⟩
  | some data =>
    if !data.truthy then ⟨400, .invalidPayload, processed_requests, []⟩
    else
      match data.pyContains "message" with
      | none => ⟨500, .errorBody "TypeError: argument is not a container", processed_requests, []⟩
      | some false => ⟨400, .invalidPayload, processed_requests, []⟩
      | some true =>
        match data.pyContains "request_id" with
        | none => ⟨500, .errorBody "TypeError: argument is not a container", processed_requests, []⟩
        | some false => ⟨400, .invalidPayload, processed_requests, []⟩
        | some true =>
          match data.subscript "request_id", data.subscript "message" with
          | some request_id, some message =>
            if processed_requests.contains request_id then
              ⟨202, .alreadyProcessed, processed_requests, []⟩
            else
              match pubResult with
              | .ok message_id =>
                  ⟨202, .messageId message_id, request_id :: processed_requests,
                    [⟨topic_path, Json.serialize message,
                      [("request_id", request_id), ("source", .str "http-function")]⟩]⟩
              | .error e =>
                  ⟨500, .errorBody e, processed_requests,
                    [⟨topic_path, Json.serialize message,
                      [("request_id", request_id), ("source", .str "http-function")]⟩]⟩
          | _, _ =>
              ⟨500, .errorBody "TypeError: value is not subscriptable", processed_requests, []⟩

/-! ### Interleaved execution of concurrent `publish_message` calls

The runtime may execute several handler invocations concurrently within one
process; they share only `processed_requests`. For the double-publish
question each invocation on the fresh-id path performs three steps that touch
shared state or the network, in this order:

* `check` — line 22, `request_id in processed_requests`;
* `publish` — lines 30–35, `publisher.publish` and the blocking
  `future.result()` (the publish is confirmed here);
* `record` — line 36, `processed_requests.add(request_id)`.

Each step is atomic (a set membership test, a network round trip whose
effect is counted, a set insert), but the scheduler may interleave the steps
of different invocations arbitrarily. Request ids are drawn as strings, the
shape every request in the claims uses. -/

/-- Program counter of one in-flight `publish_message` invocation that passed
validation with a given `request_id`. -/
inductive PubPc where
  | check
  | publish
  | record
  | done

/-- One in-flight invocation: its request id and its next step. -/
structure PubThread where
  request_id : String
  pc : PubPc

/-- The process state shared by concurrent invocations: the dedup set, the
number of downstream publish calls issued so far, and the invocations. -/
structure PubSys where
  processed : List String
  pubCount : Nat
  threads : List PubThread

/-- Execute the next atomic step of one invocation against the shared state,
following lines 22–36 of the handler: a `check` on a present id finishes the
invocation with the "Already processed" answer; a `check` on a fresh id
proceeds to `publish`; `publish` performs the downstream call; `record`
inserts the id into the dedup set. -/
def stepThread (processed : List String) (pubCount : Nat) (t : PubThread) :
    List String × Nat × PubThread :=
  match t.pc with
  | .check =>
      if processed.contains t.request_id then (processed, pubCount, ⟨t.request_id, .done⟩)
      else (processed, pubCount, ⟨t.request_id, .publish⟩)
  | .publish => (processed, pubCount + 1, ⟨t.request_id, .record⟩)
  | .record => (t.request_id :: processed, pubCount, ⟨t.request_id, .done⟩)
  | .done => (processed, pubCount, t)

/-- Let invocation `i` take its next atomic step (no effect for an index out
of range or a finished invocation). -/
def stepSys (s : PubSys) (i : Nat) : PubSys :=
  match s.threads.get? i with
  | none => s
  | some t =>
      let r := stepThread s.processed s.pubCount t
      ⟨r.1, r.2.1, s.threads.set i r.2.2⟩

/-- Run a schedule: the sequence of invocation indices chosen by the
scheduler, each taking one atomic step in turn. -/
def runSched (s : PubSys) (sched : List Nat) : PubSys :=
  sched.foldl stepSys s

/-! ### Association-list lemmas -/

/-- After setting `k`, looking up `k` yields the new value. -/
theorem assocGet_assocSet_self {β : Type} (l : List (String × β)) (k : String) (v : β) :
    assocGet (assocSet l k v) k = some v := by
  induction l with
  | nil => simp [assocGet, assocSet, List.find?]
  | cons p rest ih =>
      obtain ⟨k2, v2⟩ := p
      by_cases h : k2 = k
      · simp [assocGet, assocSet, h, List.find?]
      · have hk : (k2 == k) = false := beq_eq_false_iff_ne.mpr h
        simpa [assocGet, assocSet, hk, List.find?] using ih

/-- Setting `k` leaves the binding of every other key unchanged. -/
theorem assocGet_assocSet_ne {β : Type} (l : List (String × β)) (k k2 : String) (v : β)
    (h : k2 ≠ k) : assocGet (assocSet l k v) k2 = assocGet l k2 := by
  have hk : (k == k2) = false := beq_eq_false_iff_ne.mpr (Ne.symm h)
  induction l with
  | nil => simp [assocGet, assocSet, List.find?, hk]
  | cons p rest ih =>
      obtain ⟨k3, v3⟩ := p
      by_cases h3 : k3 = k
      · subst h3
        simp [assocGet, assocSet, List.find?, hk, beq_eq_false_iff_ne.mpr h]
      · have hk3 : (k3 == k) = false := beq_eq_false_iff_ne.mpr h3
        have hstep : assocSet ((k3, v3) :: rest) k v = (k3, v3) :: assocSet rest k v := by
          simp [assocSet, hk3]
        by_cases h4 : k3 = k2
        · subst h4
          simp [assocGet, hstep, List.find?]
        · have hk4 : (k3 == k2) = false := beq_eq_false_iff_ne.mpr h4
          simpa [assocGet, hstep, List.find?, hk4] using ih

/-- Setting the same key twice keeps only the second value. -/
theorem assocSet_assocSet_same {β : Type} (l : List (String × β)) (k : String) (v w : β) :
    assocSet (assocSet l k v) k w = assocSet l k w := by
  induction l with
  | nil => simp [assocSet]
  | cons p rest ih =>
      obtain ⟨k2, v2⟩ := p
      by_cases h : k2 = k
      · simp [assocSet, h]
      · have hk : (k2 == k) = false := beq_eq_false_iff_ne.mpr h
        simp [assocSet, hk, ih]

/-- Removing a key that has no binding leaves the list unchanged. -/
theorem assocRemove_of_assocGet_none {β : Type} (l : List (String × β)) (k : String)
    (h : assocGet l k = none) : assocRemove l k = l := by
  induction l with
  | nil => rfl
  | cons p rest ih =>
      obtain ⟨k2, v2⟩ := p
      have hk : (k2 == k) = false := by
        cases hx : k2 == k
        · rfl
        · exfalso
          simp [assocGet, List.find?, hx] at h
      have hrest : assocGet rest k = none := by
        simpa [assocGet, List.find?, hk] using h
      simp [assocRemove, hk, ih hrest]

/-- `List.contains` only grows when an element is consed on. -/
theorem contains_cons_of_contains {α : Type} [BEq α] (a : α) (l : List α) (x : α)
    (h : l.contains x = true) : (a :: l).contains x = true := by
  cases hx : x == a with
  | true => simp [List.contains, List.elem, hx]
  | false => simpa [List.contains, List.elem, hx] using h

/-! ### Claims about the Firestore CRUD service -/

/-- C1: the claim that `update_price` on a missing document surfaces a 404
not-found response fails on the code. Line 105 does raise
`HTTPException(404, "Item not found")` inside the transaction — but FastAPI's
`HTTPException` subclasses `Exception`, so the `except Exception` clause of
line 112 catches it and re-raises `HTTPException(500, "Transaction failed")`:
the caller receives 500, not 404. The no-write half of the claim does hold:
the store is unchanged. This theorem evaluates the handler on a store with
one document `"K"` and the missing key `"missing-key"`. -/
theorem update_price_missing_key_gives_500 :
    update_price [("K", [("name", Json.str "Widget"), ("price", Json.num 9)])] "missing-key"
        (Json.num 5)
      = ((500, PriceResp.transactionFailed),
         [("K", [("name", Json.str "Widget"), ("price", Json.num 9)])]) := rfl

/-- C7: on an existing document, `update_price` issues a field-level update of
exactly `price`: it returns HTTP 200 with the new value, the committed
document has `price` set to the new value, every other field of the document
is unchanged, and every other document of the store is unchanged. -/
theorem update_price_updates_only_price (store : Store) (item_id : String) (v : Json)
    (snap : Fields) (hEx : lookupDoc store item_id = some snap) :
    update_price store item_id v
      = ((200, .priceUpdated v), setDoc store item_id (setField snap "price" v)) ∧
    getField (setField snap "price" v) "price" = some v ∧
    (∀ k, k ≠ "price" → getField (setField snap "price" v) k = getField snap k) ∧
    lookupDoc (setDoc store item_id (setField snap "price" v)) item_id
      = some (setField snap "price" v) ∧
    (∀ id2, id2 ≠ item_id →
      lookupDoc (setDoc store item_id (setField snap "price" v)) id2 = lookupDoc store id2) := by
  refine ⟨by simp [update_price, txn_fn, hEx], ?_, ?_, ?_, ?_⟩
  · simpa [getField, setField] using assocGet_assocSet_self snap "price" v
  · intro k hk
    simpa [getField, setField] using assocGet_assocSet_ne snap "price" k v hk
  · simpa [lookupDoc, setDoc] using
      assocGet_assocSet_self store item_id (setField snap "price" v)
  · intro id2 h2
    simpa [lookupDoc, setDoc] using
      assocGet_assocSet_ne store item_id id2 (setField snap "price" v) h2

/-- Witness for C7: the spec's scenario document at key `"K"`. -/
theorem update_price_updates_only_price_witness :
    lookupDoc [("K", [("name", Json.str "Widget"), ("price", Json.num 9)])] "K"
      = some [("name", Json.str "Widget"), ("price", Json.num 9)] ∧
    update_price [("K", [("name", Json.str "Widget"), ("price", Json.num 9)])] "K" (Json.num 12)
      = ((200, .priceUpdated (Json.num 12)),
         [("K", [("name", Json.str "Widget"), ("price", Json.num 12)])]) :=
  ⟨rfl,
    ((update_price_updates_only_price
        [("K", [("name", Json.str "Widget"), ("price", Json.num 9)])] "K" (Json.num 12)
        [("name", Json.str "Widget"), ("price", Json.num 9)] rfl).1).trans rfl⟩

/-- C8: `update_price` is idempotent — applying it twice in sequence with the
same key and value gives the same response and the same final store as
applying it once (both when the document exists and when it does not). -/
theorem update_price_idempotent (store : Store) (item_id : String) (v : Json) :
    update_price (update_price store item_id v).2 item_id v
      = update_price store item_id v := by
  cases hEx : lookupDoc store item_id with
  | none => simp [update_price, txn_fn, hEx]
  | some snap =>
      have h1 : update_price store item_id v
          = ((200, .priceUpdated v), setDoc store item_id (setField snap "price" v)) := by
        simp [update_price, txn_fn, hEx]
      have h2 : lookupDoc (setDoc store item_id (setField snap "price" v)) item_id
          = some (setField snap "price" v) := by
        simpa [lookupDoc, setDoc] using
          assocGet_assocSet_self store item_id (setField snap "price" v)
      have hf : setField (setField snap "price" v) "price" v = setField snap "price" v := by
        simpa [setField] using assocSet_assocSet_same snap "price" v v
      have hd : setDoc (setDoc store item_id (setField snap "price" v)) item_id
            (setField snap "price" v)
          = setDoc store item_id (setField snap "price" v) := by
        simpa [setDoc] using
          assocSet_assocSet_same store item_id (setField snap "price" v) (setField snap "price" v)
      rw [h1]
      simp [update_price, txn_fn, h2, hf, hd]

/-- C10: `delete_item` issues the store-side delete and returns the success
confirmation with HTTP 200 for every key, with no existence check and no
not-found branch; on a key with no document the store is left unchanged and
the response is still the success confirmation. -/
theorem delete_item_always_succeeds (store : Store) (item_id : String) :
    delete_item store item_id = ((200, DeleteResp.itemDeleted), removeDoc store item_id) ∧
    (lookupDoc store item_id = none → (delete_item store item_id).2 = store) := by
  refine ⟨rfl, fun h => ?_⟩
  simpa [delete_item, removeDoc] using assocRemove_of_assocGet_none store item_id h

/-- Witness for C10: deleting the absent key `"b"` from a one-document store
succeeds and leaves the store unchanged. -/
theorem delete_item_always_succeeds_witness :
    lookupDoc [("a", ([("price", Json.num 1)] : Fields))] "b" = none ∧
    (delete_item [("a", ([("price", Json.num 1)] : Fields))] "b").2
      = [("a", [("price", Json.num 1)])] :=
  ⟨rfl, (delete_item_always_succeeds [("a", [("price", Json.num 1)])] "b").2 rfl⟩

/-! ### Claims about the idempotent publisher -/

/-- C2 counterexample: the claim says a body whose `request_id` is not a
non-empty string is rejected with 400 and nothing is published, but line 16
only checks that the key is present. A payload with `request_id = ""` passes
validation, is published, and is answered 202 with a message id. -/
theorem publish_accepts_empty_request_id :
    publish_message (.ok "mid-1") []
        (some (Json.obj [("message", Json.str "m"), ("request_id", Json.str "")]))
      = ⟨202, .messageId "mid-1", [Json.str ""],
          [⟨topic_path, Json.serialize (Json.str "m"),
            [("request_id", Json.str ""), ("source", Json.str "http-function")]⟩]⟩ := rfl

/-- C2 (amended): the validation of line 16 is a presence check only — a
parsed body that is falsy, or lacks a `message` entry, or lacks a
`request_id` entry, is rejected with 400 Invalid payload, the dedup set is
unchanged and no publish is attempted. (The type and non-emptiness of
`request_id` are not checked, as the counterexample shows.) -/
theorem publish_rejects_missing_fields (pubResult : Except String String)
    (pr : List Json) (d : Json)
    (h : d.truthy = false ∨ d.pyContains "message" = some false ∨
      d.pyContains "request_id" = some false) :
    publish_message pubResult pr (some d) = ⟨400, .invalidPayload, pr, []⟩ := by
  rcases h with h | h | h
  · simp [publish_message, h]
  · cases hT : d.truthy
    · simp [publish_message, hT]
    · simp [publish_message, hT, h]
  · cases hT : d.truthy
    · simp [publish_message, hT]
    · cases hM : d.pyContains "message" with
      | none => exfalso; cases d <;> simp [Json.pyContains] at hM h
      | some b =>
          cases b
          · simp [publish_message, hT, hM]
          · simp [publish_message, hT, hM, h]

/-- Witness for the amended C2: a truthy object carrying `message` but no
`request_id` is answered 400 with no publish. -/
theorem publish_rejects_missing_fields_witness :
    ((Json.obj [("message", Json.null)]).pyContains "request_id" = some false) ∧
    publish_message (.ok "mid-1") [] (some (Json.obj [("message", Json.null)]))
      = ⟨400, .invalidPayload, [], []⟩ :=
  ⟨rfl, publish_rejects_missing_fields (.ok "mid-1") [] (Json.obj [("message", Json.null)])
    (Or.inr (Or.inr rfl))⟩

/-- C4: on a valid payload whose `request_id` has never been seen, the handler
serializes the message, issues exactly one publish call to the topic with
attributes `request_id` and `source = "http-function"`, records the id, and
returns the endpoint-assigned message id with HTTP 202. -/
theorem publish_fresh_publishes_once (pr : List Json) (d msg rid : Json) (mid : String)
    (hT : d.truthy = true)
    (hM : d.pyContains "message" = some true)
    (hR : d.pyContains "request_id" = some true)
    (hSR : d.subscript "request_id" = some rid)
    (hSM : d.subscript "message" = some msg)
    (hFresh : pr.contains rid = false) :
    publish_message (.ok mid) pr (some d)
      = ⟨202, .messageId mid, rid :: pr,
          [⟨topic_path, Json.serialize msg,
            [("request_id", rid), ("source", Json.str "http-function")]⟩]⟩ := by
  simp [publish_message, hT, hM, hR, hSR, hSM, hFresh]

/-- Witness for C4: `\x7b"message": "hello", "request_id": "r1"\x7d` against an
empty dedup set. -/
theorem publish_fresh_publishes_once_witness :
    (([] : List Json).contains (Json.str "r1") = false) ∧
    publish_message (.ok "m1") []
        (some (Json.obj [("message", Json.str "hello"), ("request_id", Json.str "r1")]))
      = ⟨202, .messageId "m1", [Json.str "r1"],
          [⟨topic_path, Json.serialize (Json.str "hello"),
            [("request_id", Json.str "r1"), ("source", Json.str "http-function")]⟩]⟩ :=
  ⟨rfl, publish_fresh_publishes_once []
    (Json.obj [("message", Json.str "hello"), ("request_id", Json.str "r1")])
    (Json.str "hello") (Json.str "r1") "m1" rfl rfl rfl rfl rfl rfl⟩

/-- C5: on a valid payload whose `request_id` is already in the dedup set, the
handler answers "Already processed" with HTTP 202 — not an error — issues no
publish call whatever the publish oracle would say, mints no message id, and
leaves the dedup set unchanged. -/
theorem publish_duplicate_suppressed (pubResult : Except String String)
    (pr : List Json) (d msg rid : Json)
    (hT : d.truthy = true)
    (hM : d.pyContains "message" = some true)
    (hR : d.pyContains "request_id" = some true)
    (hSR : d.subscript "request_id" = some rid)
    (hSM : d.subscript "message" = some msg)
    (hDup : pr.contains rid = true) :
    publish_message pubResult pr (some d) = ⟨202, .alreadyProcessed, pr, []⟩ := by
  simp [publish_message, hT, hM, hR, hSR, hSM, hDup]

/-- Witness for C5: replaying `request_id = "r1"` against a dedup set that
already holds it. -/
theorem publish_duplicate_suppressed_witness :
    (([Json.str "r1"] : List Json).contains (Json.str "r1") = true) ∧
    publish_message (.ok "m2") [Json.str "r1"]
        (some (Json.obj [("message", Json.str "hello"), ("request_id", Json.str "r1")]))
      = ⟨202, .alreadyProcessed, [Json.str "r1"], []⟩ :=
  ⟨rfl, publish_duplicate_suppressed (.ok "m2") [Json.str "r1"]
    (Json.obj [("message", Json.str "hello"), ("request_id", Json.str "r1")])
    (Json.str "hello") (Json.str "r1") rfl rfl rfl rfl rfl rfl⟩

/-- C6: when the publish round trip fails, the handler answers 500 with the
exception text and the `request_id` is NOT added to the dedup set — the set is
recorded only after a confirmed publish (line 36 runs after line 35) — so the
same request retried against the unchanged set with a succeeding publish goes
through and is recorded. -/
theorem publish_failure_leaves_dedup_unchanged (pr : List Json) (d msg rid : Json)
    (e mid : String)
    (hT : d.truthy = true)
    (hM : d.pyContains "message" = some true)
    (hR : d.pyContains "request_id" = some true)
    (hSR : d.subscript "request_id" = some rid)
    (hSM : d.subscript "message" = some msg)
    (hFresh : pr.contains rid = false) :
    publish_message (.error e) pr (some d)
      = ⟨500, .errorBody e, pr,
          [⟨topic_path, Json.serialize msg,
            [("request_id", rid), ("source", Json.str "http-function")]⟩]⟩ ∧
    publish_message (.ok mid) pr (some d)
      = ⟨202, .messageId mid, rid :: pr,
          [⟨topic_path, Json.serialize msg,
            [("request_id", rid), ("source", Json.str "http-function")]⟩]⟩ := by
  constructor <;> simp [publish_message, hT, hM, hR, hSR, hSM, hFresh]

/-- Witness for C6: a failed publish of `request_id = "r1"` leaves the set
empty; the retry with a succeeding publish is accepted. -/
theorem publish_failure_leaves_dedup_unchanged_witness :
    (([] : List Json).contains (Json.str "r1") = false) ∧
    publish_message (.error "TimeoutError") []
        (some (Json.obj [("message", Json.str "hello"), ("request_id", Json.str "r1")]))
      = ⟨500, .errorBody "TimeoutError", [],
          [⟨topic_path, Json.serialize (Json.str "hello"),
            [("request_id", Json.str "r1"), ("source", Json.str "http-function")]⟩]⟩ :=
  ⟨rfl, (publish_failure_leaves_dedup_unchanged []
    (Json.obj [("message", Json.str "hello"), ("request_id", Json.str "r1")])
    (Json.str "hello") (Json.str "r1") "TimeoutError" "m3" rfl rfl rfl rfl rfl rfl).1⟩

/-- C9: every `publish_message` call leaves the dedup set a superset of what
it was before — no path removes an entry — and every publish call it issues
carries a `request_id` that was not in the set at call entry: an id present
in the set is never re-published. -/
theorem processed_requests_monotone (pubResult : Except String String)
    (pr : List Json) (body : Option Json) :
    (∀ x : Json, pr.contains x = true →
      (publish_message pubResult pr body).processed.contains x = true) ∧
    (∀ c ∈ (publish_message pubResult pr body).calls, ∃ rid msg,
      pr.contains rid = false ∧
      c = ⟨topic_path, Json.serialize msg,
            [("request_id", rid), ("source", Json.str "http-function")]⟩) := by
  rcases body with _ | d
  · exact ⟨fun x hx => hx, fun c hc => absurd hc (List.not_mem_nil c)⟩
  · cases hT : d.truthy
    · refine ⟨fun x hx => ?_, fun c hc => ?_⟩
      · simpa [publish_message, hT] using hx
      · simp [publish_message, hT] at hc
    · cases hM : d.pyContains "message" with
      | none =>
          refine ⟨fun x hx => ?_, fun c hc => ?_⟩
          · simpa [publish_message, hT, hM] using hx
          · simp [publish_message, hT, hM] at hc
      | some bM =>
          cases bM
          · refine ⟨fun x hx => ?_, fun c hc => ?_⟩
            · simpa [publish_message, hT, hM] using hx
            · simp [publish_message, hT, hM] at hc
          · cases hR : d.pyContains "request_id" with
            | none =>
                refine ⟨fun x hx => ?_, fun c hc => ?_⟩
                · simpa [publish_message, hT, hM, hR] using hx
                · simp [publish_message, hT, hM, hR] at hc
            | some bR =>
                cases bR
                · refine ⟨fun x hx => ?_, fun c hc => ?_⟩
                  · simpa [publish_message, hT, hM, hR] using hx
                  · simp [publish_message, hT, hM, hR] at hc
                · cases hSR : d.subscript "request_id" with
                  | none =>
                      cases hSM : d.subscript "message" with
                      | none =>
                          refine ⟨fun x hx => ?_, fun c hc => ?_⟩
                          · simpa [publish_message, hT, hM, hR, hSR, hSM] using hx
                          · simp [publish_message, hT, hM, hR, hSR, hSM] at hc
                      | some msg =>
                          refine ⟨fun x hx => ?_, fun c hc => ?_⟩
                          · simpa [publish_message, hT, hM, hR, hSR, hSM] using hx
                          · simp [publish_message, hT, hM, hR, hSR, hSM] at hc
                  | some rid =>
                      cases hSM : d.subscript "message" with
                      | none =>
                          refine ⟨fun x hx => ?_, fun c hc => ?_⟩
                          · simpa [publish_message, hT, hM, hR, hSR, hSM] using hx
                          · simp [publish_message, hT, hM, hR, hSR, hSM] at hc
                      | some msg =>
                          cases hDup : pr.contains rid
                          · cases pubResult with
                            | ok mid =>
                                refine ⟨fun x hx => ?_, fun c hc => ?_⟩
                                · have h2 : (rid :: pr).contains x = true :=
                                    contains_cons_of_contains rid pr x hx
                                  simpa [publish_message, hT, hM, hR, hSR, hSM, hDup] using h2
                                · simp [publish_message, hT, hM, hR, hSR, hSM, hDup] at hc
                                  exact ⟨rid, msg, hDup, hc⟩
                            | error e =>
                                refine ⟨fun x hx => ?_, fun c hc => ?_⟩
                                · simpa [publish_message, hT, hM, hR, hSR, hSM, hDup] using hx
                                · simp [publish_message, hT, hM, hR, hSR, hSM, hDup] at hc
                                  exact ⟨rid, msg, hDup, hc⟩
                          · refine ⟨fun x hx => ?_, fun c hc => ?_⟩
                            · simpa [publish_message, hT, hM, hR, hSR, hSM, hDup] using hx
                            · simp [publish_message, hT, hM, hR, hSR, hSM, hDup] at hc

/-- Witness for C9: an id already in the set is still in it after a call. -/
theorem processed_requests_monotone_witness :
    (([Json.str "a"] : List Json).contains (Json.str "a") = true) ∧
    (publish_message (.ok "m") [Json.str "a"] none).processed.contains (Json.str "a") = true :=
  ⟨rfl, (processed_requests_monotone (.ok "m") [Json.str "a"] none).1 (Json.str "a") rfl⟩

/-- C3: the claim that concurrent calls with the same never-seen `request_id`
result in exactly one downstream publish fails on the code: the duplicate
check (line 22) and the insert (line 36) are separate operations on the set
with the publish between them, not an atomic check-and-insert. Two
invocations with the fresh id `"r1"`, interleaved so that both run the
line-22 check before either reaches line 36, both pass the check and both
publish: the schedule `[0, 1, 0, 1, 0, 1]` yields two downstream publishes.
Fully serialized execution of the same two invocations (`[0, 0, 0, 1, 1, 1]`)
publishes exactly once. -/
theorem concurrent_publish_double_publishes :
    (runSched ⟨[], 0, [⟨"r1", .check⟩, ⟨"r1", .check⟩]⟩ [0, 1, 0, 1, 0, 1]).pubCount = 2 ∧
    (runSched ⟨[], 0, [⟨"r1", .check⟩, ⟨"r1", .check⟩]⟩ [0, 0, 0, 1, 1, 1]).pubCount = 1 :=
  ⟨rfl, rfl⟩
